import Mathlib

/-
Verification of astrbot_plugin_asmr (src/main.py) against its
natural-language specification.  The Python source is shallowly embedded:
network effects are modelled by per-attempt / per-file oracles, the
filesystem by an optional existing-size, and the interactive session
handler by the trace of actions it performs.
-/

set_option maxHeartbeats 1000000
set_option linter.unusedVariables false

namespace AsmrPlugin

/-- Outcome of one HTTP attempt as observed by `fetch_with_retry`
(src/main.py lines 142-154): `ok j` models an HTTP 200 response whose body
parses as JSON value `j` (the `return await response.json()` path);
`err e` models a non-200 status, a transport/timeout exception, or a JSON
parse failure (all of which append an error string and rotate the API). -/
inductive Attempt (α : Type) where
  | ok : α → Attempt α
  | err : String → Attempt α
deriving DecidableEq, Repr

/-- True when the attempt failed (non-200 / exception). -/
def Attempt.isErr {α : Type} : Attempt α → Bool
  | .ok _ => false
  | .err _ => true

/-- Result of `fetch_with_retry`: the returned value (`none` is the
Python `return None` sentinel of line 158), the number of HTTP attempts
actually issued, the final API rotation index, and the accumulated error
strings (the `errors` list of line 133). -/
structure FetchResult (α : Type) where
  result : Option α
  attemptsIssued : Nat
  finalIdx : Nat
  errors : List String
deriving Repr

/-- The retry loop of `fetch_with_retry` (src/main.py lines 142-154).
`oracle k` is the outcome of the `k`-th attempt that would be issued
(network nondeterminism), `numApis` is `len(self.base_urls)`, the `Nat`
argument is the number of remaining attempts, then the current API index
(`self.current_api_index`) and the accumulated error list.  On each
failure the index rotates by `(idx + 1) % numApis`, mirroring
`rotate_api` (line 124). -/
def fetchLoop {α : Type} (oracle : Nat → Attempt α) (numApis : Nat) :
    Nat → Nat → List String → FetchResult α
  | 0, idx, errors => ⟨none, 0, idx, errors⟩
  | n + 1, idx, errors =>
    match oracle 0 with
    | .ok j => ⟨some j, 1, idx, errors⟩
    | .err e =>
      let r := fetchLoop (fun k => oracle (k + 1)) numApis n ((idx + 1) % numApis)
        (errors ++ [e])
      ⟨r.result, r.attemptsIssued + 1, r.finalIdx, r.errors⟩

/-- `fetch_with_retry` (src/main.py lines 131-158): run the retry loop
with `max_retries` remaining attempts and an empty error list. -/
def fetch_with_retry {α : Type} (oracle : Nat → Attempt α)
    (numApis max_retries idx : Nat) : FetchResult α :=
  fetchLoop oracle numApis max_retries idx []

theorem fetchLoop_spec {α : Type} (n : Nat) :
    ∀ (oracle : Nat → Attempt α) (numApis idx : Nat) (errors : List String),
      (fetchLoop oracle numApis n idx errors).attemptsIssued ≤ n ∧
      (∀ j, (fetchLoop oracle numApis n idx errors).result = some j →
        1 ≤ (fetchLoop oracle numApis n idx errors).attemptsIssued ∧
        oracle ((fetchLoop oracle numApis n idx errors).attemptsIssued - 1) = Attempt.ok j ∧
        ∀ k, k < (fetchLoop oracle numApis n idx errors).attemptsIssued - 1 →
          (oracle k).isErr = true) ∧
      ((fetchLoop oracle numApis n idx errors).result = none ↔
        ∀ k, k < n → (oracle k).isErr = true) := by
  induction n with
  | zero =>
    intro oracle numApis idx errors
    refine ⟨Nat.le_refl 0, ?_, ?_⟩
    · intro j hj
      simp [fetchLoop] at hj
    · simp [fetchLoop]
  | succ n ih =>
    intro oracle numApis idx errors
    cases h : oracle 0 with
    | ok j =>
      have hr1 : (fetchLoop oracle numApis (n + 1) idx errors).result = some j := by
        simp [fetchLoop, h]
      have hr2 : (fetchLoop oracle numApis (n + 1) idx errors).attemptsIssued = 1 := by
        simp [fetchLoop, h]
      refine ⟨?_, ?_, ?_⟩
      · rw [hr2]; omega
      · intro j' hj'
        rw [hr1] at hj'
        simp only [Option.some.injEq] at hj'
        subst hj'
        refine ⟨by rw [hr2], by rw [hr2]; exact h, ?_⟩
        intro k hk
        rw [hr2] at hk
        exact absurd hk (by omega)
      · constructor
        · intro hc
          rw [hr1] at hc
          exact absurd hc (Option.some_ne_none j)
        · intro hall
          have h0 := hall 0 (Nat.succ_pos n)
          rw [h] at h0
          simp [Attempt.isErr] at h0
    | err e =>
      obtain ⟨ih1, ih2, ih3⟩ :=
        ih (fun k => oracle (k + 1)) numApis ((idx + 1) % numApis) (errors ++ [e])
      refine ⟨?_, ?_, ?_⟩
      · simp only [fetchLoop, h]
        omega
      · intro j hj
        simp only [fetchLoop, h] at hj ⊢
        obtain ⟨ha1, ha2, ha3⟩ := ih2 j hj
        refine ⟨by omega, ?_, ?_⟩
        · have : (fetchLoop (fun k => oracle (k + 1)) numApis n ((idx + 1) % numApis)
              (errors ++ [e])).attemptsIssued - 1 + 1 =
              (fetchLoop (fun k => oracle (k + 1)) numApis n ((idx + 1) % numApis)
              (errors ++ [e])).attemptsIssued := by omega
          rw [this] at ha2
          have heq : (fetchLoop (fun k => oracle (k + 1)) numApis n ((idx + 1) % numApis)
              (errors ++ [e])).attemptsIssued + 1 - 1 =
              (fetchLoop (fun k => oracle (k + 1)) numApis n ((idx + 1) % numApis)
              (errors ++ [e])).attemptsIssued := by omega
          rw [heq]
          exact ha2
        · intro k hk
          cases k with
          | zero => simp [h, Attempt.isErr]
          | succ m =>
            have hm : m < (fetchLoop (fun k => oracle (k + 1)) numApis n ((idx + 1) % numApis)
                (errors ++ [e])).attemptsIssued - 1 := by omega
            exact ha3 m hm
      · simp only [fetchLoop, h]
        constructor
        · intro hnone k hk
          cases k with
          | zero => simp [h, Attempt.isErr]
          | succ m =>
            have hm : m < n := by omega
            exact ih3.mp hnone m hm
        · intro hall
          exact ih3.mpr (fun k hk => hall (k + 1) (by omega))

/-- C1: `fetch_with_retry` with `max_retries = N` (N ≥ 1) issues at most N
HTTP attempts; when it returns a parsed JSON value it is the value of the
first attempt that succeeded with HTTP 200, and no attempt after that one
was issued (every earlier attempt failed); it returns the sentinel `none`
if and only if all N attempts fail with a non-200 status or a
transport exception.  By the type of `FetchResult.result` no partial or
garbled value is ever returned. -/
theorem fetch_with_retry_spec {α : Type} (oracle : Nat → Attempt α)
    (numApis N idx : Nat) (hN : 1 ≤ N) :
    (fetch_with_retry oracle numApis N idx).attemptsIssued ≤ N ∧
    (∀ j, (fetch_with_retry oracle numApis N idx).result = some j →
      1 ≤ (fetch_with_retry oracle numApis N idx).attemptsIssued ∧
      oracle ((fetch_with_retry oracle numApis N idx).attemptsIssued - 1) = Attempt.ok j ∧
      ∀ k, k < (fetch_with_retry oracle numApis N idx).attemptsIssued - 1 →
        (oracle k).isErr = true) ∧
    ((fetch_with_retry oracle numApis N idx).result = none ↔
      ∀ k, k < N → (oracle k).isErr = true) :=
  fetchLoop_spec N oracle numApis idx []

/-- Witness for C1 at a concrete input: 4 mirrors, `max_retries = 2`,
first attempt fails and the second succeeds. -/
theorem fetch_with_retry_spec_witness :
    (fetch_with_retry (fun k => if k = 0 then Attempt.err "boom" else Attempt.ok (42 : Nat))
      4 2 0).attemptsIssued ≤ 2 :=
  (fetch_with_retry_spec (fun k => if k = 0 then Attempt.err "boom" else Attempt.ok (42 : Nat))
    4 2 0 (by decide)).1

/-- A downloadable file descriptor, the dict built by
`recursively_transform_data` (src/main.py lines 59-65): title, download
URL, type tag, declared byte size (0 when unknown), and the folder path
string (forced to the empty string by the source). -/
structure FileInfo where
  title : String
  url : String
  ftype : String
  size : Nat
  full_folder_path : String
deriving DecidableEq, Repr

/-- File-open mode chosen by `download_worker` (src/main.py line 546):
`wb` truncating overwrite, `ab` append (resume). -/
inductive Mode where
  | wb
  | ab
deriving DecidableEq, Repr

/-- The pre-request decision of `download_worker` (src/main.py lines
546-562): open mode, optional start offset of a `Range: bytes=S-` header,
whether the existing file is unlinked first, and whether the download is
skipped entirely because the file is already complete (the early
`return True` of line 556). -/
structure DownloadPlan where
  mode : Mode
  rangeStart : Option Nat
  deleteFirst : Bool
  skip : Bool
deriving DecidableEq, Repr

/-- The branch structure of `download_worker` before the request is
issued (src/main.py lines 546-562).  `target` is the state of the target
path on disk: `none` when the file does not exist, `some S` when it
exists with size S (`full_path.stat().st_size`).  `expected_size` is
`file_info.get('size', 0)`. -/
def plan_download (target : Option Nat) (expected_size : Nat) : DownloadPlan :=
  match target with
  | none => ⟨Mode.wb, none, false, false⟩
  | some downloaded_size =>
    if downloaded_size = expected_size ∧ 0 < expected_size then
      ⟨Mode.wb, none, false, true⟩
    else if downloaded_size < expected_size then
      ⟨Mode.ab, some downloaded_size, false, false⟩
    else
      ⟨Mode.wb, none, true, false⟩

/-- Final on-disk size of the target after `download_worker` streams a
response body of `respLen` bytes (src/main.py lines 573-583): append mode
preserves the existing `rangeStart` bytes, write mode starts from zero,
and a skipped download leaves the existing complete file untouched. -/
def run_download (target : Option Nat) (expected_size respLen : Nat) : Nat :=
  let p := plan_download target expected_size
  if p.skip then
    match target with
    | some s => s
    | none => 0
  else
    match p.rangeStart with
    | some s => s + respLen
    | none => respLen

/-- Outcome of the HTTP GET inside `download_worker` (src/main.py lines
573-592): `ok n` is a 2xx response whose body of `n` bytes streams to
disk; `httpError s` is a non-2xx status (`response.raise_for_status()`
raises `ClientResponseError`, caught at line 588); `netExn e` is any
other exception (caught at line 591). -/
inductive NetResult where
  | ok : Nat → NetResult
  | httpError : Nat → NetResult
  | netExn : String → NetResult
deriving DecidableEq, Repr

/-- The boolean result of `download_worker` (src/main.py lines 532-593):
`true` on a completed or skipped download, `false` when the request
failed — both exception paths are caught and converted to `False`, so the
worker is a total function and never raises into the batch. -/
def download_worker (target : Option Nat) (expected_size : Nat) (net : NetResult) : Bool :=
  let p := plan_download target expected_size
  if p.skip then true
  else
    match net with
    | .ok _ => true
    | .httpError _ => false
    | .netExn _ => false

/-- The download batch of `selection_waiter` (src/main.py lines 715-725):
one `download_worker` task per selected file, all scheduled, all awaited
by `asyncio.gather`.  `targets i` is the on-disk state for file `i` and
`net i` the network outcome for file `i`. -/
def downloadAll (files : List FileInfo) (targets : Nat → Option Nat)
    (net : Nat → NetResult) : List Bool :=
  files.enum.map (fun p => download_worker (targets p.1) p.2.size (net p.1))

/-- The counts reported by `_send_download_summary` (src/main.py lines
595-601): total = `len(final_files)`, success = `success_count`
(`sum(results)` at line 725), failure = total - success. -/
structure Summary where
  total : Nat
  success : Nat
  failure : Nat
deriving DecidableEq, Repr

/-- `_send_download_summary`'s arithmetic (src/main.py lines 598-600). -/
def make_summary (final_files : List FileInfo) (success_count : Nat) : Summary :=
  ⟨final_files.length, success_count, final_files.length - success_count⟩

/-- C2: for an existing target file of size S and declared expected size
E: if S < E the file is opened in append mode with a `Range: bytes=S-`
header and no deletion, and streaming the remaining E - S bytes makes the
final size exactly E; if S = E > 0 the download is skipped (success, no
network request) and the file keeps size S; if S > E the existing file is
deleted first and the file is re-downloaded from byte zero in overwrite
mode with no Range header. -/
theorem download_worker_resume_spec (S E respLen : Nat) :
    (S < E →
      plan_download (some S) E = ⟨Mode.ab, some S, false, false⟩ ∧
      (respLen = E - S → run_download (some S) E respLen = E)) ∧
    (S = E ∧ 0 < E →
      plan_download (some S) E = ⟨Mode.wb, none, false, true⟩ ∧
      run_download (some S) E respLen = S) ∧
    (E < S →
      plan_download (some S) E = ⟨Mode.wb, none, true, false⟩ ∧
      run_download (some S) E respLen = respLen) := by
  refine ⟨?_, ?_, ?_⟩
  · intro h
    have hne : ¬(S = E ∧ 0 < E) := by omega
    refine ⟨by simp [plan_download, hne, h], ?_⟩
    intro hr
    simp [run_download, plan_download, hne, h]
    omega
  · rintro ⟨h1, h2⟩
    subst h1
    exact ⟨by simp [plan_download, h2], by simp [run_download, plan_download, h2]⟩
  · intro h
    have hne : ¬(S = E ∧ 0 < E) := by omega
    have hlt : ¬(S < E) := by omega
    exact ⟨by simp [plan_download, hne, hlt],
           by simp [run_download, plan_download, hne, hlt]⟩

/-- Witness for C2: resume at S=3,E=5 yields final size 5; S=E=5 is
skipped; S=7 > E=5 is deleted and redownloaded from zero. -/
theorem download_worker_resume_spec_witness :
    run_download (some 3) 5 2 = 5 ∧
    plan_download (some 5) 5 = ⟨Mode.wb, none, false, true⟩ ∧
    plan_download (some 7) 5 = ⟨Mode.wb, none, true, false⟩ :=
  ⟨((download_worker_resume_spec 3 5 2).1 (by decide)).2 (by decide),
   ((download_worker_resume_spec 5 5 2).2.1 (by decide)).1,
   ((download_worker_resume_spec 7 5 2).2.2 (by decide)).1⟩

/-- C10: when the declared size is 0 (unknown) and the target file exists
with any size S, `download_worker` always deletes the existing file and
redownloads from byte zero in overwrite mode with no Range header — the
file is never treated as complete (skip = false) and never resumed
(rangeStart = none, mode = wb): the final size is exactly the fresh
response length. -/
theorem download_worker_size_zero_spec (S respLen : Nat) :
    plan_download (some S) 0 = ⟨Mode.wb, none, true, false⟩ ∧
    run_download (some S) 0 respLen = respLen := by
  have hne : ¬(S = 0 ∧ 0 < 0) := by omega
  have hlt : ¬(S < 0) := by omega
  exact ⟨by simp [plan_download, hne, hlt],
         by simp [run_download, plan_download, hne, hlt]⟩

/-- C3: every per-file failure is recorded as a `false` outcome without
raising (by totality of `download_worker`), all files are scheduled and
awaited — the result list has exactly one outcome per selected file — and
the summary's success count plus failure count equals the total number of
selected files. -/
theorem downloadAll_batch_spec (files : List FileInfo) (targets : Nat → Option Nat)
    (net : Nat → NetResult) :
    (downloadAll files targets net).length = files.length ∧
    (make_summary files ((downloadAll files targets net).count true)).success +
      (make_summary files ((downloadAll files targets net).count true)).failure =
      (make_summary files ((downloadAll files targets net).count true)).total ∧
    (make_summary files ((downloadAll files targets net).count true)).total =
      files.length := by
  have hlen : (downloadAll files targets net).length = files.length := by
    simp [downloadAll]
  refine ⟨hlen, ?_, rfl⟩
  have hcount := List.count_le_length true (downloadAll files targets net)
  simp only [make_summary]
  omega

/-- A node of the nested track tree returned by `/api/tracks` (src/main.py
lines 50-67): an item is a folder (with an optional `children` list —
`None`/absent children are skipped, matching the `"children" in item and
item["children"] is not None` guard of line 56), an audio leaf (title,
`mediaDownloadUrl`, declared size, defaulting to 0), or an image/text
leaf (ignored by the transform). -/
inductive FileNode where
  | folder : String → Option (List FileNode) → FileNode
  | audio : String → String → Nat → FileNode
  | image : String → FileNode
  | text : String → FileNode
deriving Repr

/-- `recursively_transform_data` (src/main.py lines 45-67): iterate the
item list; on a folder, recurse into its children with the path extended
by the folder title (the `new_path` of line 55, threaded but never stored);
on an audio leaf, append a descriptor whose `full_folder_path` is forced
to the empty string (line 64); image and text leaves are ignored.  The
Python mutates `all_files` in place; here it is an accumulator. -/
def recursively_transform_data : List FileNode → List FileInfo → List String → List FileInfo
  | [], all_files, _ => all_files
  | item :: rest, all_files, current_folder_path =>
    match item with
    | .folder title children =>
      let after_item :=
        match children with
        | some cs => recursively_transform_data cs all_files (current_folder_path ++ [title])
        | none => all_files
      recursively_transform_data rest after_item current_folder_path
    | .audio title url size =>
      recursively_transform_data rest
        (all_files ++ [⟨title, url, "audio", size, ""⟩]) current_folder_path
    | .image _ => recursively_transform_data rest all_files current_folder_path
    | .text _ => recursively_transform_data rest all_files current_folder_path

/-- Proof-side depth-first enumeration of the audio descriptors of a node
list, children in original order, independent of any folder path. -/
def audioInfos : List FileNode → List FileInfo
  | [] => []
  | .folder _ (some cs) :: rest => audioInfos cs ++ audioInfos rest
  | .folder _ none :: rest => audioInfos rest
  | .audio title url size :: rest => ⟨title, url, "audio", size, ""⟩ :: audioInfos rest
  | .image _ :: rest => audioInfos rest
  | .text _ :: rest => audioInfos rest

/-- Modelled from the spec (§4.3): the depth-first, original-child-order
sequence of audio leaf titles — the reference traversal order against
which the implementation's output order is compared. -/
def audioTitlesDFS : List FileNode → List String
  | [] => []
  | .folder _ (some cs) :: rest => audioTitlesDFS cs ++ audioTitlesDFS rest
  | .folder _ none :: rest => audioTitlesDFS rest
  | .audio title _ _ :: rest => title :: audioTitlesDFS rest
  | .image _ :: rest => audioTitlesDFS rest
  | .text _ :: rest => audioTitlesDFS rest

theorem recursively_transform_data_eq (data : List FileNode) :
    ∀ (all_files : List FileInfo) (path : List String),
      recursively_transform_data data all_files path = all_files ++ audioInfos data := by
  induction data using audioInfos.induct with
  | case1 =>
    intro all_files path
    simp [recursively_transform_data, audioInfos]
  | case2 t cs rest ih1 ih2 =>
    intro all_files path
    simp only [recursively_transform_data, audioInfos]
    rw [ih1, ih2, List.append_assoc]
  | case3 t rest ih =>
    intro all_files path
    simp only [recursively_transform_data, audioInfos]
    rw [ih]
  | case4 t u s rest ih =>
    intro all_files path
    simp only [recursively_transform_data, audioInfos]
    rw [ih, List.append_assoc]
    rfl
  | case5 t rest ih =>
    intro all_files path
    simp only [recursively_transform_data, audioInfos]
    rw [ih]
  | case6 t rest ih =>
    intro all_files path
    simp only [recursively_transform_data, audioInfos]
    rw [ih]

theorem audioInfos_all_audio_empty (data : List FileNode) :
    ∀ f ∈ audioInfos data, f.ftype = "audio" ∧ f.full_folder_path = "" := by
  induction data using audioInfos.induct with
  | case1 => intro f hf; simp [audioInfos] at hf
  | case2 t cs rest ih1 ih2 =>
    intro f hf
    simp only [audioInfos, List.mem_append] at hf
    rcases hf with hf | hf
    · exact ih1 f hf
    · exact ih2 f hf
  | case3 t rest ih =>
    intro f hf
    simp only [audioInfos] at hf
    exact ih f hf
  | case4 t u s rest ih =>
    intro f hf
    simp only [audioInfos, List.mem_cons] at hf
    rcases hf with hf | hf
    · subst hf; exact ⟨rfl, rfl⟩
    · exact ih f hf
  | case5 t rest ih =>
    intro f hf
    simp only [audioInfos] at hf
    exact ih f hf
  | case6 t rest ih =>
    intro f hf
    simp only [audioInfos] at hf
    exact ih f hf

/-- C5: audio-only flattening produces only descriptors tagged "audio"
(no image or text leaf ever yields a descriptor) and every produced
descriptor's folder path is the empty string, no matter how deeply the
leaf was nested in folders. -/
theorem recursively_transform_data_audio_only (data : List FileNode) (path : List String)
    (f : FileInfo) (hf : f ∈ recursively_transform_data data [] path) :
    f.ftype = "audio" ∧ f.full_folder_path = "" := by
  rw [recursively_transform_data_eq data [] path, List.nil_append] at hf
  exact audioInfos_all_audio_empty data f hf

/-- Witness for C5: a text leaf, an image leaf and a doubly nested audio
leaf flatten to a single audio descriptor with empty folder path. -/
theorem recursively_transform_data_audio_only_witness :
    (⟨"track.mp3", "u", "audio", 5, ""⟩ : FileInfo).ftype = "audio" ∧
    (⟨"track.mp3", "u", "audio", 5, ""⟩ : FileInfo).full_folder_path = "" :=
  recursively_transform_data_audio_only
    [FileNode.text "readme.txt",
     FileNode.folder "Folder A" (some [FileNode.image "cover.jpg",
       FileNode.folder "Folder B" (some [FileNode.audio "track.mp3" "u" 5])])]
    [] ⟨"track.mp3", "u", "audio", 5, ""⟩
    (by rw [recursively_transform_data_eq]; simp [audioInfos])

theorem audioInfos_map_title (data : List FileNode) :
    (audioInfos data).map FileInfo.title = audioTitlesDFS data := by
  induction data using audioInfos.induct with
  | case1 => simp [audioInfos, audioTitlesDFS]
  | case2 t cs rest ih1 ih2 => simp [audioInfos, audioTitlesDFS, ih1, ih2]
  | case3 t rest ih => simp [audioInfos, audioTitlesDFS, ih]
  | case4 t u s rest ih => simp [audioInfos, audioTitlesDFS, ih]
  | case5 t rest ih => simp [audioInfos, audioTitlesDFS, ih]
  | case6 t rest ih => simp [audioInfos, audioTitlesDFS, ih]

theorem audioInfos_map_path (data : List FileNode) :
    (audioInfos data).map FileInfo.full_folder_path =
      List.replicate (audioInfos data).length "" := by
  have h : ∀ b ∈ (audioInfos data).map FileInfo.full_folder_path, b = "" := by
    intro b hb
    simp only [List.mem_map] at hb
    obtain ⟨f, hf, rfl⟩ := hb
    exact (audioInfos_all_audio_empty data f hf).2
  have h2 := List.eq_replicate_of_mem h
  simpa using h2

/-- C6 (amended): flattening is deterministic and order-stable — the
descriptor titles are exactly the depth-first, original-child-order
sequence of audio leaf titles, for any starting path — but each
descriptor's folder path is always the empty string: the folder nesting
is NOT reconstructed (the source forces `full_folder_path` to `""` at
src/main.py line 64). -/
theorem recursively_transform_data_order_spec (data : List FileNode) (path : List String) :
    (recursively_transform_data data [] path).map FileInfo.title = audioTitlesDFS data ∧
    (recursively_transform_data data [] path).map FileInfo.full_folder_path =
      List.replicate (audioTitlesDFS data).length "" := by
  rw [recursively_transform_data_eq data [] path, List.nil_append]
  refine ⟨audioInfos_map_title data, ?_⟩
  rw [audioInfos_map_path data]
  have hlen : (audioTitlesDFS data).length = (audioInfos data).length := by
    rw [← audioInfos_map_title data, List.length_map]
  rw [hlen]

/-- Counterexample for C6: a leaf nested under `Folder A > Folder B`
produces a descriptor whose folder path is the empty string — not the
segments `["Folder A","Folder B"]` the claim requires — so the claim that
the folder path segments reconstruct the nesting is false (every
descriptor of this doubly nested tree has an empty folder path). -/
theorem recursively_transform_data_path_counterexample :
    (recursively_transform_data
      [FileNode.folder "Folder A" (some [FileNode.folder "Folder B"
        (some [FileNode.audio "track.mp3" "u" 5])])] [] []).map
        FileInfo.full_folder_path = [""] ∧
    ¬ (∀ f ∈ recursively_transform_data
        [FileNode.folder "Folder A" (some [FileNode.folder "Folder B"
          (some [FileNode.audio "track.mp3" "u" 5])])] [] [],
        f.full_folder_path ≠ "") := by
  constructor
  · rw [recursively_transform_data_eq]
    simp [audioInfos]
  · intro h
    exact h ⟨"track.mp3", "u", "audio", 5, ""⟩
      (by rw [recursively_transform_data_eq]; simp [audioInfos]) rfl

/-- Maximal digit run from the head of the character list: the greedy
`\d+` group of `RJ_RE` (src/main.py line 33). -/
def takeDigits : List Char → List Char
  | [] => []
  | c :: rest => if c.isDigit then c :: takeDigits rest else []

/-- One-position match of `RJ_RE = (?:RJ)?(?P<id>\d+)` with IGNORECASE
(src/main.py line 33): the greedy optional `RJ` prefix is consumed when
it is followed by at least one digit (otherwise it backtracks to empty
and `\d+` must match at the position itself); the returned group is the
maximal digit run. -/
def rjMatchAt : List Char → Option (List Char)
  | c1 :: c2 :: rest =>
    if (c1 = 'R' ∨ c1 = 'r') ∧ (c2 = 'J' ∨ c2 = 'j') ∧
        ((match rest with | c3 :: _ => c3.isDigit | [] => false) = true) then
      some (takeDigits rest)
    else if c1.isDigit then some (takeDigits (c1 :: c2 :: rest))
    else none
  | [c] => if c.isDigit then some [c] else none
  | [] => none

/-- `RJ_RE.search`: scan left to right for the first position where the
pattern matches, as used at src/main.py lines 274-279 and 614-620. -/
def rjSearch : List Char → Option (List Char)
  | [] => none
  | c :: rest =>
    match rjMatchAt (c :: rest) with
    | some d => some d
    | none => rjSearch rest

/-- `rj_match.group("id")`: the digit token the plugin uses as the work
identifier (`rid` / `rj_id` in src/main.py lines 279 and 620). -/
def rj_extract (s : String) : Option String :=
  (rjSearch s.data).map (fun cs => String.mk cs)

/-- The API path built by `download_asmr` from the extracted identifier
(src/main.py line 621). -/
def tracks_url_path (rj_id : String) : String :=
  "/api/tracks/" ++ rj_id ++ "?v=2"

/-- Counterexample for C7: the inputs "RJ0123456", "rj123456" and
"0123456" do NOT all normalize to one canonical identifier: the code only
strips an optional case-insensitive "RJ" prefix and keeps the digit
string verbatim, so "RJ0123456" gives "0123456" while "rj123456" gives
the different token "123456". -/
theorem rj_extract_counterexample :
    ¬ (rj_extract "RJ0123456" = rj_extract "rj123456" ∧
       rj_extract "rj123456" = rj_extract "0123456") := by
  decide

/-- C7 (amended): identifier extraction strips one optional
case-insensitive "RJ" prefix and returns the digit run verbatim with no
fixed-width normalization: "RJ0123456" and "0123456" both normalize to
"0123456", and the extracted token is used verbatim in the tracks API
path, but "rj123456" normalizes to the distinct token "123456". -/
theorem rj_extract_spec :
    rj_extract "RJ0123456" = some "0123456" ∧
    rj_extract "rj123456" = some "123456" ∧
    rj_extract "0123456" = some "0123456" ∧
    tracks_url_path "0123456" = "/api/tracks/0123456?v=2" ∧
    tracks_url_path "123456" = "/api/tracks/123456?v=2" := by
  refine ⟨by decide, by decide, by decide, rfl, rfl⟩

/-- An observable action of the `selection_waiter` session handler
(src/main.py lines 666-734): a chat message sent via `ev.send(...)`, or
the terminal `controller.stop()`. -/
inductive Action where
  | send : String → Action
  | stop : Action
deriving DecidableEq, Repr

/-- Lookup modelling `key in selectable_items` / `selectable_items[key]`:
each key maps to exactly one file (src/main.py line 655). -/
def lookupKey (selectable : List (String × FileInfo)) (key : String) : Option FileInfo :=
  match selectable with
  | [] => none
  | (k, f) :: rest => if k = key then some f else lookupKey rest key

/-- `selectable_items` construction (src/main.py lines 653-655): the i-th
audio file gets key `I(i+1)`. -/
def build_selectable (all_audio_files : List FileInfo) : List (String × FileInfo) :=
  all_audio_files.enum.map (fun p => ("I" ++ toString (p.1 + 1), p.2))

/-- Whitespace test for Python's `str.strip`. -/
def isWs (c : Char) : Bool :=
  c = ' ' ∨ c = '\t' ∨ c = '\n' ∨ c = '\r'

/-- Drop leading whitespace characters. -/
def dropWs : List Char → List Char
  | [] => []
  | c :: rest => if isWs c then dropWs rest else c :: rest

/-- Python `str.strip()`: remove leading and trailing whitespace. -/
def pyStrip (s : String) : String :=
  String.mk (dropWs ((dropWs s.data.reverse).reverse))

/-- Python `str.upper()` (ASCII, as used on the reply text). -/
def pyUpper (s : String) : String :=
  String.mk (s.data.map Char.toUpper)

/-- Python `str.split(",")` over the character list: comma-separated
groups, `[""]` for the empty string. -/
def splitOnComma : List Char → List (List Char)
  | [] => [[]]
  | c :: rest =>
    let r := splitOnComma rest
    if c = ',' then [] :: r
    else
      match r with
      | [] => [[c]]
      | g :: gs => (c :: g) :: gs

/-- Python `choice.split(',')` on strings. -/
def pySplitComma (s : String) : List String :=
  (splitOnComma s.data).map String.mk

/-- `chosen_keys` parsing (src/main.py line 685): split the uppercased
reply on commas, strip each token, drop empty tokens. -/
def parse_keys (choice : String) : List String :=
  ((pySplitComma choice).map pyStrip).filter (fun k => k ≠ "")

/-- The key-resolution loop (src/main.py lines 687-693): keys are checked
left to right, files of valid keys accumulate, and the FIRST unrecognized
key aborts the loop (`break` after the error message); `Except.error k`
carries that first invalid key. -/
def select_keys (selectable : List (String × FileInfo)) :
    List String → Except String (List FileInfo)
  | [] => .ok []
  | k :: rest =>
    match lookupKey selectable k with
    | some f => (select_keys selectable rest).map (fun fs => f :: fs)
    | none => .error k

/-- Deduplication by the composite key `url + title`, keeping the first
occurrence in insertion order (src/main.py lines 697-703). -/
def dedupe_files (final_files : List FileInfo) : List FileInfo :=
  final_files.foldl
    (fun acc f =>
      if acc.any (fun g => g.url ++ g.title = f.url ++ f.title) then acc
      else acc ++ [f]) []

/-- The summary text of `_send_download_summary` (src/main.py lines
595-601). -/
def summary_msg (base_dir rj_id : String) (total success : Nat) : String :=
  "### 📦 RJ" ++ rj_id ++ " 下载总结\n" ++
  "- **总音频数**: " ++ toString total ++ "\n" ++
  "- **成功下载/跳过**: " ++ toString success ++ "\n" ++
  "- **失败数**: " ++ toString (total - success) ++ "\n" ++
  "文件已保存在机器人服务器的: `" ++ base_dir ++ "/RJ" ++ rj_id ++ "/` 目录下。"

/-- One reply processed by the try-block of `selection_waiter`
(src/main.py lines 669-727).  `senderMatches` is the line-670 identity
check, `message_str` the raw reply, `targets`/`net` the per-file
disk and network oracles of the launched batch, and `fatal` injects an
unexpected exception (as any awaited call inside the body could raise),
which propagates as `Except.error` to the except arm.  The `Except.ok`
value is the list of messages the path sends. -/
def selection_body (senderMatches : Bool) (message_str : String)
    (selectable : List (String × FileInfo)) (rj_id base_dir : String)
    (targets : Nat → Option Nat) (net : Nat → NetResult)
    (fatal : Option String) : Except String (List Action) :=
  match fatal with
  | some e => .error e
  | none =>
    if senderMatches = false then .ok []
    else
      let choice := pyUpper (pyStrip message_str)
      if choice = "Q" then .ok [Action.send "下载已取消。"]
      else
        let keysResult : Except String (List FileInfo) :=
          if choice = "*" then .ok (selectable.map Prod.snd)
          else select_keys selectable (parse_keys choice)
        match keysResult with
        | .error key =>
          .ok [Action.send ("⚠️ 无效的编号或键值: **" ++ key ++ "**，请重新输入。")]
        | .ok chosen =>
          let final_files := dedupe_files chosen
          if final_files.isEmpty then
            .ok [Action.send "没有有效的文件被选中，请重新输入。"]
          else
            let results := downloadAll final_files targets net
            let success_count := results.count true
            .ok [Action.send ("✅ 您已选择下载 **" ++ toString final_files.length ++
                   "** 个文件，正在启动异步下载..."),
                 Action.send (summary_msg base_dir rj_id final_files.length success_count)]

/-- The full `selection_waiter` callback (src/main.py lines 666-734): the
try-body's sends, or — when the body raises — the except arm's
fatal-error message (line 731), and in every case the finally arm's
`controller.stop()` (line 734) as the final action. -/
def selection_waiter_trace (senderMatches : Bool) (message_str : String)
    (selectable : List (String × FileInfo)) (rj_id base_dir : String)
    (targets : Nat → Option Nat) (net : Nat → NetResult)
    (fatal : Option String) : List Action :=
  (match selection_body senderMatches message_str selectable rj_id base_dir targets net fatal with
   | .ok acts => acts
   | .error e => [Action.send ("❌ 下载过程出现致命错误: " ++ e)]) ++ [Action.stop]

theorem last_action_concat (l : List Action) :
    (l ++ [Action.stop]).getLast? = some Action.stop :=
  List.getLast?_concat l

/-- C8: the terminal cleanup `controller.stop()` runs on every exit path
of the selection handler — ignored foreign sender, user cancel 'Q',
invalid token, empty selection, completed batch (with or without per-file
failures), and any unexpected exception inside the handler: every
execution trace ends with `Action.stop`, so the session never remains
waiting after the handler has finished. -/
theorem selection_waiter_always_stops (senderMatches : Bool) (message_str : String)
    (selectable : List (String × FileInfo)) (rj_id base_dir : String)
    (targets : Nat → Option Nat) (net : Nat → NetResult) (fatal : Option String) :
    (selection_waiter_trace senderMatches message_str selectable rj_id base_dir
      targets net fatal).getLast? = some Action.stop := by
  unfold selection_waiter_trace
  exact last_action_concat _

/-- Counterexample for C4: with a single listed item `I1` and the reply
"I2" from the originating user, the handler sends the per-token error
message and then STOPS the session (`controller.stop()` runs via the
finally arm): it does not remain awaiting a fresh reply, contradicting
the claimed re-prompt-and-re-wait behavior. -/
theorem selection_invalid_token_counterexample :
    selection_waiter_trace true "I2"
      [("I1", ⟨"a.mp3", "u", "audio", 5, ""⟩)] "123456" "Downloads/ASMR_Files"
      (fun _ => none) (fun _ => NetResult.ok 5) none =
      [Action.send "⚠️ 无效的编号或键值: **I2**，请重新输入。", Action.stop] ∧
    Action.stop ∈ selection_waiter_trace true "I2"
      [("I1", ⟨"a.mp3", "u", "audio", 5, ""⟩)] "123456" "Downloads/ASMR_Files"
      (fun _ => none) (fun _ => NetResult.ok 5) none := by
  have h : selection_waiter_trace true "I2"
      [("I1", ⟨"a.mp3", "u", "audio", 5, ""⟩)] "123456" "Downloads/ASMR_Files"
      (fun _ => none) (fun _ => NetResult.ok 5) none =
      [Action.send "⚠️ 无效的编号或键值: **I2**，请重新输入。", Action.stop] := by
    rfl
  exact ⟨h, by rw [h]; simp⟩

/-- C4 (amended): for every reply from the originating user that is not
"Q" or "*" and whose comma-separated token list has an unrecognized
token, the handler emits one error message naming the FIRST unrecognized
token and then ends the session — `controller.stop()` runs via the
finally arm, so the wait is not re-armed (no re-prompt, no re-wait). -/
theorem selection_invalid_token_spec (message_str : String)
    (selectable : List (String × FileInfo)) (rj_id base_dir : String)
    (targets : Nat → Option Nat) (net : Nat → NetResult) (key : String)
    (hq : pyUpper (pyStrip message_str) ≠ "Q")
    (hstar : pyUpper (pyStrip message_str) ≠ "*")
    (hkey : select_keys selectable (parse_keys (pyUpper (pyStrip message_str))) =
      Except.error key) :
    selection_waiter_trace true message_str selectable rj_id base_dir targets net none =
      [Action.send ("⚠️ 无效的编号或键值: **" ++ key ++ "**，请重新输入。"), Action.stop] := by
  unfold selection_waiter_trace selection_body
  simp [hq, hstar, hkey]

/-- Witness for C4 (amended): keys I1,I3 against listed items I1,I2 —
the error names I3 and the trace ends with stop. -/
theorem selection_invalid_token_spec_witness :
    selection_waiter_trace true "i1, i3"
      [("I1", ⟨"a.mp3", "u", "audio", 5, ""⟩), ("I2", ⟨"b.mp3", "v", "audio", 6, ""⟩)]
      "123456" "Downloads/ASMR_Files" (fun _ => none) (fun _ => NetResult.ok 5) none =
      [Action.send ("⚠️ 无效的编号或键值: **I3**，请重新输入。"), Action.stop] :=
  selection_invalid_token_spec "i1, i3"
    [("I1", ⟨"a.mp3", "u", "audio", 5, ""⟩), ("I2", ⟨"b.mp3", "v", "audio", 6, ""⟩)]
    "123456" "Downloads/ASMR_Files" (fun _ => none) (fun _ => NetResult.ok 5) "I3"
    (by decide) (by decide) (by rfl)

/-- Phase of one `download_worker` task with respect to the bounded
semaphore (src/main.py lines 564 and 717): before `async with semaphore`
(waiting), inside the with-block actively transferring (active), or
finished with its permit released (done). -/
inductive TaskState where
  | waiting
  | active
  | done
deriving DecidableEq, Repr

/-- `true` exactly for a task inside the semaphore-guarded block. -/
def isActive : TaskState → Bool
  | .active => true
  | _ => false

/-- State of one download batch: the free permits of
`asyncio.Semaphore(max_concurrent_downloads)` plus the phase of every
scheduled task. -/
structure SemState where
  permits : Nat
  tasks : List TaskState
deriving DecidableEq, Repr

/-- Number of tasks simultaneously inside the semaphore block — the
downloads in an active network-read state. -/
def activeCount (tasks : List TaskState) : Nat :=
  (tasks.filter isActive).length

/-- Interleaving semantics of `async with semaphore`: a waiting task may
enter the guarded block only when a permit is free, consuming it; a task
leaving the block releases its permit.  Any task position may move. -/
inductive SemStep : SemState → SemState → Prop
  | acquire (p : Nat) (l r : List TaskState) :
      SemStep ⟨p + 1, l ++ TaskState.waiting :: r⟩ ⟨p, l ++ TaskState.active :: r⟩
  | release (p : Nat) (l r : List TaskState) :
      SemStep ⟨p, l ++ TaskState.active :: r⟩ ⟨p + 1, l ++ TaskState.done :: r⟩

/-- States reachable from the batch start: `K` free permits
(`asyncio.Semaphore(K)`, src/main.py line 717) and all `n` scheduled
tasks waiting (the gather of line 724 schedules every file at once). -/
inductive SemReachable (K n : Nat) : SemState → Prop
  | init : SemReachable K n ⟨K, List.replicate n TaskState.waiting⟩
  | step {s s' : SemState} : SemReachable K n s → SemStep s s' → SemReachable K n s'

theorem semaphore_invariant {K n : Nat} {s : SemState}
    (h : SemReachable K n s) : activeCount s.tasks + s.permits = K := by
  induction h with
  | init =>
    simp [activeCount, List.filter_replicate, isActive]
  | step hr hstep ih =>
    cases hstep with
    | acquire p l r =>
      simp [activeCount, List.filter_append, isActive] at ih ⊢
      omega
    | release p l r =>
      simp [activeCount, List.filter_append, isActive] at ih ⊢
      omega

/-- C9: with concurrency limit K, in every state reachable under the
semaphore discipline — any batch size n, any interleaving of acquires and
releases — at most K downloads are simultaneously inside the
semaphore-guarded network transfer. -/
theorem semaphore_bound (K n : Nat) (s : SemState)
    (h : SemReachable K n s) : activeCount s.tasks ≤ K := by
  have hinv := semaphore_invariant h
  omega

/-- Witness for C9: K = 2, batch of 3, after one task acquired: one
active download, bound 2 respected. -/
theorem semaphore_bound_witness :
    activeCount (SemState.mk 1 [TaskState.active, TaskState.waiting, TaskState.waiting]).tasks ≤ 2 :=
  semaphore_bound 2 3 ⟨1, [TaskState.active, TaskState.waiting, TaskState.waiting]⟩
    (SemReachable.step SemReachable.init
      (SemStep.acquire 1 [] [TaskState.waiting, TaskState.waiting]))

end AsmrPlugin
